import Mathlib

/-!
Shallow embedding of `pkg/samples/samples.go` from the stripe-cli sample
scaffolding workflow, together with theorems settling the spec claims about
it.  External collaborators (the prompt renderer, the version-control client,
the HTTP executor, the profile store and the filesystem) are modelled as
explicit inputs: each fallible collaborator call is an `Except String`
value supplied to the embedded function, and observable side effects
(prompt invocations, persisted identifiers, attempted resource creations,
file copies, directory listings, environment-file writes) are recorded in
the returned result records.
-/

deriving instance DecidableEq for Except

namespace StripeSamples

/-- One entry of the manifest's `requiredResources` list
(`requiredResourceSampleConfig` in the source). -/
structure requiredResourceSampleConfig where
  Name : String
  EnvVar : String
deriving Repr, DecidableEq

/-- One entry of the manifest's `integrations` list
(`sampleConfigIntegration` in the source). -/
structure sampleConfigIntegration where
  Name : String
  Clients : List String
  Servers : List String
deriving Repr, DecidableEq

/-- The parsed `.cli.json` manifest (`sampleConfig` in the source).
`PostInstall` is Go's `map[string]string`, modelled as an association list. -/
structure sampleConfig where
  Name : String
  ConfigureDotEnv : Bool
  PostInstall : List (String × String)
  Integrations : List sampleConfigIntegration
  RequiredResources : List requiredResourceSampleConfig
deriving Repr, DecidableEq

/-- `(sc *sampleConfig) hasIntegrations`: `len(sc.Integrations) > 1`. -/
def sampleConfig.hasIntegrations (sc : sampleConfig) : Bool :=
  sc.Integrations.length > 1

/-- `(i *sampleConfigIntegration) hasClients`: `len(i.Clients) > 0`. -/
def sampleConfigIntegration.hasClients (i : sampleConfigIntegration) : Bool :=
  i.Clients.length > 0

/-- `(i *sampleConfigIntegration) hasServers`: `len(i.Servers) > 0`. -/
def sampleConfigIntegration.hasServers (i : sampleConfigIntegration) : Bool :=
  i.Servers.length > 0

/-- `(i *sampleConfigIntegration) hasMultipleClients`: `len(i.Clients) > 1`. -/
def sampleConfigIntegration.hasMultipleClients (i : sampleConfigIntegration) : Bool :=
  i.Clients.length > 1

/-- `(i *sampleConfigIntegration) hasMultipleServers`: `len(i.Servers) > 1`. -/
def sampleConfigIntegration.hasMultipleServers (i : sampleConfigIntegration) : Bool :=
  i.Servers.length > 1

/-- `(i *sampleConfigIntegration) name`: the empty path component for the
sentinel integration name `"main"`, the integration name otherwise. -/
def sampleConfigIntegration.name (i : sampleConfigIntegration) : String :=
  if i.Name = "main" then "" else i.Name

/-- The `RequiredResource` catalog-template struct from the source. -/
structure RequiredResource where
  name : String
  description : String
  httpPath : String
  data : List String
deriving Repr, DecidableEq, Inhabited

/-- The static catalog `var requiredResources []RequiredResource`, built at
process start and never mutated. -/
def requiredResources : List RequiredResource :=
  [ { name := "stripe_samples_price_recurring_basic_id"
    , description := "recurring price for a 'basic' plan"
    , httpPath := "/v1/prices"
    , data :=
        [ "currency=usd"
        , "unit_amount=1000"
        , "product_data[name]=Stripe Sample Basic"
        , "recurring[interval]=month" ] }
  , { name := "stripe_samples_price_recurring_pro_id"
    , description := "recurring price for a 'pro' plan"
    , httpPath := "/v1/prices"
    , data :=
        [ "currency=usd"
        , "unit_amount=1000"
        , "product_data[name]=Stripe Sample Pro"
        , "recurring[interval]=month" ] } ]

/-- `getRequiredResource`: first catalog entry with the given name, or `none`
(Go `nil`). -/
def getRequiredResource (nm : String) : Option RequiredResource :=
  requiredResources.find? (fun rr => rr.name = nm)

/-- The user's profile store, restricted to the sample-resource ledger:
`GetStripeSampleResourceID` returns the stored identifier or the empty
string when none is stored. -/
def Profile : Type := String → String

/-- The loop body of `MissingRequiredResources`, with the `ret` accumulator
made explicit.  Returning `none` models the Go `return nil` taken when a
declared name is absent from the static catalog. -/
def missingLoop (profile : Profile) :
    List requiredResourceSampleConfig → List RequiredResource →
      Option (List RequiredResource)
  | [], ret => some ret
  | rrConfig :: rest, ret =>
    match getRequiredResource rrConfig.Name with
    | none => none
    | some rr =>
      if profile rr.name = "" then missingLoop profile rest (ret ++ [rr])
      else missingLoop profile rest ret

/-- `(s *Samples) MissingRequiredResources`, as a function of the profile
ledger and the manifest's declared required resources. -/
def MissingRequiredResources (profile : Profile)
    (decls : List requiredResourceSampleConfig) : Option (List RequiredResource) :=
  missingLoop profile decls []

/-- The claim's description of the missing set: the declared resources, in
order, that resolve in the catalog and whose stored identifier is empty.
Stated from the spec's words, to be compared with `MissingRequiredResources`. -/
def missingPerSpec (profile : Profile)
    (decls : List requiredResourceSampleConfig) : List RequiredResource :=
  decls.filterMap (fun d =>
    match getRequiredResource d.Name with
    | none => none
    | some rr => if profile rr.name = "" then some rr else none)

theorem missingLoop_all_known (profile : Profile)
    (decls : List requiredResourceSampleConfig)
    (h : ∀ d ∈ decls, (getRequiredResource d.Name).isSome) :
    ∀ acc, missingLoop profile decls acc = some (acc ++ missingPerSpec profile decls) := by
  induction decls with
  | nil => intro acc; simp [missingLoop, missingPerSpec]
  | cons d rest ih =>
    intro acc
    have hd : (getRequiredResource d.Name).isSome := h d (List.mem_cons_self d rest)
    have hrest : ∀ x ∈ rest, (getRequiredResource x.Name).isSome := by
      intro x hx; exact h x (List.mem_cons_of_mem d hx)
    obtain ⟨rr, hrr⟩ := Option.isSome_iff_exists.mp hd
    by_cases hid : profile rr.name = ""
    · simp [missingLoop, missingPerSpec, hrr, hid, ih hrest]
    · simp [missingLoop, missingPerSpec, hrr, hid, ih hrest]

theorem missingLoop_unknown (profile : Profile)
    (decls : List requiredResourceSampleConfig)
    (h : ∃ d ∈ decls, getRequiredResource d.Name = none) :
    ∀ acc, missingLoop profile decls acc = none := by
  induction decls with
  | nil => simp at h
  | cons d rest ih =>
    intro acc
    rcases h with ⟨x, hx, hnone⟩
    rcases List.mem_cons.mp hx with heq | hmem
    · subst heq; simp [missingLoop, hnone]
    · cases hrr : getRequiredResource d.Name with
      | none => simp [missingLoop, hrr]
      | some rr =>
        have ih2 := ih ⟨x, hmem, hnone⟩
        by_cases hid : profile rr.name = ""
        · simp [missingLoop, hrr, hid, ih2]
        · simp [missingLoop, hrr, hid, ih2]

/-- C1: for a manifest whose declared required-resource names all resolve in
the static catalog, `MissingRequiredResources` returns exactly the declared
resources whose identifier stored in the profile is empty; and with the
ledger entry `stripe_samples_price_recurring_basic_id -> "price_123"`, that
name is excluded from the returned missing set. -/
theorem missing_required_resources_exact (profile : Profile)
    (decls : List requiredResourceSampleConfig)
    (h : ∀ d ∈ decls, (getRequiredResource d.Name).isSome) :
    MissingRequiredResources profile decls = some (missingPerSpec profile decls) ∧
    (profile "stripe_samples_price_recurring_basic_id" = "price_123" →
      ∀ l, MissingRequiredResources profile decls = some l →
        ∀ rr ∈ l, rr.name ≠ "stripe_samples_price_recurring_basic_id") := by
  have hmain := missingLoop_all_known profile decls h []
  constructor
  · simpa [MissingRequiredResources] using hmain
  · intro hledger l hl rr hrr hname
    have hl2 : l = missingPerSpec profile decls := by
      have := hl
      rw [MissingRequiredResources, hmain] at this
      simpa using this.symm
    subst hl2
    rcases List.mem_filterMap.mp hrr with ⟨d, _, hd⟩
    cases hcat : getRequiredResource d.Name with
    | none => rw [hcat] at hd; simp at hd
    | some rr2 =>
      rw [hcat] at hd
      by_cases hid : profile rr2.name = ""
      · have hrr2 : rr2 = rr := by simpa [hid] using hd
        subst hrr2
        rw [hname] at hid
        rw [hledger] at hid
        simp at hid
      · simp [hid] at hd

/-- Profile used by the gap-check witnesses: the basic price id is recorded
as `"price_123"`, everything else is unset. -/
def wProfile : Profile :=
  fun nm => if nm = "stripe_samples_price_recurring_basic_id" then "price_123" else ""

/-- Declared resources used by the gap-check witnesses: both catalog names. -/
def wDecls : List requiredResourceSampleConfig :=
  [ ⟨"stripe_samples_price_recurring_basic_id", "BASIC_PRICE_ID"⟩
  , ⟨"stripe_samples_price_recurring_pro_id", "PRO_PRICE_ID"⟩ ]

theorem missing_required_resources_exact_witness :
    (∀ d ∈ wDecls, (getRequiredResource d.Name).isSome) ∧
    (MissingRequiredResources wProfile wDecls = some (missingPerSpec wProfile wDecls) ∧
    (wProfile "stripe_samples_price_recurring_basic_id" = "price_123" →
      ∀ l, MissingRequiredResources wProfile wDecls = some l →
        ∀ rr ∈ l, rr.name ≠ "stripe_samples_price_recurring_basic_id")) :=
  ⟨by decide, missing_required_resources_exact wProfile wDecls (by decide)⟩

/-- C3: when some declared required-resource name is absent from the static
catalog, `MissingRequiredResources` returns `none` (Go `nil`), discarding
every missing resource found before the unknown name. -/
theorem missing_required_resources_unknown_discards (profile : Profile)
    (decls : List requiredResourceSampleConfig)
    (h : ∃ d ∈ decls, getRequiredResource d.Name = none) :
    MissingRequiredResources profile decls = none :=
  missingLoop_unknown profile decls h []

/-- Declared resources for the C3 witness: a genuinely missing catalog name
followed by a name unknown to the catalog. -/
def wDecls3 : List requiredResourceSampleConfig :=
  [ ⟨"stripe_samples_price_recurring_pro_id", "PRO_PRICE_ID"⟩
  , ⟨"stripe_samples_unknown_thing_id", "UNKNOWN_ID"⟩ ]

theorem missing_required_resources_unknown_discards_witness :
    (∃ d ∈ wDecls3, getRequiredResource d.Name = none) ∧
    MissingRequiredResources (fun _ => "") wDecls3 = none :=
  ⟨by decide, missing_required_resources_unknown_discards (fun _ => "") wDecls3 (by decide)⟩

/-- Final status of an embedded Go function call: normal return, error
return, or a Go runtime panic (nil dereference, index out of range). -/
inductive StepOutcome where
  | ok
  | err (msg : String)
  | panicked (msg : String)
deriving Repr, DecidableEq

/-- Collaborator inputs consumed by `SelectOptions`: the result each prompt
would produce if invoked, the profile ledger, and the outcome
`CreateRequiredResource` would produce per catalog name. -/
structure SelectEnv where
  integrationChoice : Except String String
  clientChoice : Except String String
  serverChoice : Except String String
  autoCreateChoice : Except String Bool
  profile : Profile
  createResource : String → Except String String

/-- Observable result of `SelectOptions`: the outcome, the fields
`s.integration`, `s.client`, `s.server` as left by the call, the
identifiers persisted via `PersistRequiredResourceID`, the catalog names
for which a creation was attempted, and the prompts invoked. -/
structure SelectResult where
  outcome : StepOutcome
  integration : Option sampleConfigIntegration
  client : String
  server : String
  persisted : List (String × String)
  created : List String
  promptsInvoked : List String
deriving Repr

/-- Result of the creation loop inside `SelectOptions`: the propagated error
if some creation failed, the `(name, id)` pairs persisted, and the names for
which `CreateRequiredResource` was invoked, in order. -/
structure ProvisionResult where
  errMsg : Option String
  persisted : List (String × String)
  attempted : List String
deriving Repr, DecidableEq

/-- The `for _, r := range missingResources` creation loop of
`SelectOptions`: each success is persisted immediately before the next
creation is attempted; the first failure aborts the loop. -/
def provisionLoop (create : String → Except String String) :
    List RequiredResource → ProvisionResult
  | [] => ⟨none, [], []⟩
  | r :: rest =>
    match create r.name with
    | .error e => ⟨some e, [], [r.name]⟩
    | .ok id =>
      let res := provisionLoop create rest
      ⟨res.errMsg, (r.name, id) :: res.persisted, r.name :: res.attempted⟩

/-- Outcome of the gap-check / auto-create block at the end of
`SelectOptions`.  That block never touches `s.integration`, `s.client` or
`s.server`, so it is factored out of the selection fields. -/
structure GapCheckResult where
  outcome : StepOutcome
  persisted : List (String × String)
  created : List String
  promptsInvoked : List String
deriving Repr, DecidableEq

/-- The gap-check / auto-create block of `SelectOptions`.  Go treats the
`nil` return of `MissingRequiredResources` like an empty slice
(`len(missingResources) > 0`). -/
def gapCheckStep (sc : sampleConfig) (env : SelectEnv) : GapCheckResult :=
  let missingList := (MissingRequiredResources env.profile sc.RequiredResources).getD []
  if missingList.length > 0 then
    match env.autoCreateChoice with
    | .error e => ⟨.err e, [], [], ["create"]⟩
    | .ok shouldCreate =>
      if shouldCreate then
        let pr := provisionLoop env.createResource missingList
        match pr.errMsg with
        | some e => ⟨.err e, pr.persisted, pr.attempted, ["create"]⟩
        | none => ⟨.ok, pr.persisted, pr.attempted, ["create"]⟩
      else ⟨.ok, [], [], ["create"]⟩
  else ⟨.ok, [], [], []⟩

/-- Tail of `SelectOptions` after both axes are resolved: runs the
gap-check / auto-create block with the selection fields already set. -/
def afterServer (sc : sampleConfig) (env : SelectEnv)
    (i : sampleConfigIntegration) (client server : String) : SelectResult :=
  let g := gapCheckStep sc env
  ⟨g.outcome, some i, client, server, g.persisted, g.created, g.promptsInvoked⟩

/-- Server-axis step of `SelectOptions`: prompt only when the chosen
integration has multiple servers, otherwise leave the selection empty.
A server-prompt error is returned (`return err`). -/
def serverStep (sc : sampleConfig) (env : SelectEnv)
    (i : sampleConfigIntegration) (client : String) : SelectResult :=
  if i.hasMultipleServers then
    match env.serverChoice with
    | .error e => ⟨.err e, some i, client, "", [], [], ["server"]⟩
    | .ok srv =>
      let r := afterServer sc env i client srv
      { r with promptsInvoked := "server" :: r.promptsInvoked }
  else afterServer sc env i client ""

/-- Client-axis step of `SelectOptions`, starting from the integration
pointer the integration step produced.  A `none` pointer models Go's nil
`*sampleConfigIntegration`, dereferenced by `hasMultipleClients`.  On a
client-prompt error the source executes `return nil`: the error is
discarded, `s.client` keeps the prompt's zero return `""`, and the
remaining steps never run. -/
def clientStep (sc : sampleConfig) (env : SelectEnv)
    (io : Option sampleConfigIntegration) : SelectResult :=
  match io with
  | none => ⟨.panicked "invalid memory address or nil pointer dereference", none, "", "", [], [], []⟩
  | some i =>
    if i.hasMultipleClients then
      match env.clientChoice with
      | .error _ => ⟨.ok, some i, "", "", [], [], ["client"]⟩
      | .ok c =>
        let r := serverStep sc env i c
        { r with promptsInvoked := "client" :: r.promptsInvoked }
    else serverStep sc env i ""

/-- The search loop of `integrationSelectPrompt`: the last integration whose
name equals the prompt's selection, `none` when no name matches. -/
def findIntegration (sc : sampleConfig) (selected : String) :
    Option sampleConfigIntegration :=
  sc.Integrations.foldl (fun acc i => if i.Name = selected then some i else acc) none

/-- `(s *Samples) SelectOptions`.  With more than one integration the
integration prompt picks by name; otherwise the source takes
`&s.sampleConfig.Integrations[0]`, which panics on an empty list. -/
def SelectOptions (sc : sampleConfig) (env : SelectEnv) : SelectResult :=
  if sc.hasIntegrations then
    match env.integrationChoice with
    | .error e => ⟨.err e, none, "", "", [], [], ["integration"]⟩
    | .ok selected =>
      let r := clientStep sc env (findIntegration sc selected)
      { r with promptsInvoked := "integration" :: r.promptsInvoked }
  else
    match sc.Integrations with
    | [] => ⟨.panicked "index out of range", none, "", "", [], [], []⟩
    | i :: _ => clientStep sc env (some i)

theorem gapCheckStep_prompts (sc : sampleConfig) (env : SelectEnv) :
    ∀ x ∈ (gapCheckStep sc env).promptsInvoked, x = "create" := by
  simp only [gapCheckStep]
  by_cases hm : 0 < ((MissingRequiredResources env.profile sc.RequiredResources).getD []).length
  · cases henv : env.autoCreateChoice with
    | error e => simp [hm, henv]
    | ok b =>
      cases b with
      | false => simp [hm, henv]
      | true =>
        cases hpr : (provisionLoop env.createResource
            ((MissingRequiredResources env.profile sc.RequiredResources).getD [])).errMsg with
        | none => simp [hm, henv, hpr]
        | some e => simp [hm, henv, hpr]
  · simp [hm]

theorem afterServer_integration (sc : sampleConfig) (env : SelectEnv)
    (i : sampleConfigIntegration) (c v : String) :
    (afterServer sc env i c v).integration = some i := rfl

theorem afterServer_client (sc : sampleConfig) (env : SelectEnv)
    (i : sampleConfigIntegration) (c v : String) :
    (afterServer sc env i c v).client = c := rfl

theorem afterServer_server (sc : sampleConfig) (env : SelectEnv)
    (i : sampleConfigIntegration) (c v : String) :
    (afterServer sc env i c v).server = v := rfl

theorem afterServer_prompts (sc : sampleConfig) (env : SelectEnv)
    (i : sampleConfigIntegration) (c v : String) :
    ∀ x ∈ (afterServer sc env i c v).promptsInvoked, x = "create" :=
  gapCheckStep_prompts sc env

theorem serverStep_fields (sc : sampleConfig) (env : SelectEnv)
    (i : sampleConfigIntegration) (c : String) :
    (serverStep sc env i c).integration = some i ∧
    (serverStep sc env i c).client = c ∧
    ∀ x ∈ (serverStep sc env i c).promptsInvoked, x = "server" ∨ x = "create" := by
  unfold serverStep
  by_cases hms : i.hasMultipleServers = true
  · rw [if_pos hms]
    cases hsc : env.serverChoice with
    | error e => simp
    | ok srv =>
      refine ⟨afterServer_integration sc env i c srv, afterServer_client sc env i c srv, ?_⟩
      intro x hx
      rcases List.mem_cons.mp hx with h | h
      · exact Or.inl h
      · exact Or.inr (afterServer_prompts sc env i c srv x h)
  · rw [if_neg hms]
    exact ⟨afterServer_integration sc env i c "", afterServer_client sc env i c "",
      fun x hx => Or.inr (afterServer_prompts sc env i c "" x hx)⟩

theorem clientStep_fields (sc : sampleConfig) (env : SelectEnv)
    (i : sampleConfigIntegration) :
    (clientStep sc env (some i)).integration = some i ∧
    ∀ x ∈ (clientStep sc env (some i)).promptsInvoked,
      x = "client" ∨ x = "server" ∨ x = "create" := by
  simp only [clientStep]
  by_cases hmc : i.hasMultipleClients = true
  · rw [if_pos hmc]
    cases hsc : env.clientChoice with
    | error e => simp
    | ok c =>
      obtain ⟨h1, _, h3⟩ := serverStep_fields sc env i c
      refine ⟨h1, ?_⟩
      intro x hx
      rcases List.mem_cons.mp hx with h | h
      · exact Or.inl h
      · exact Or.inr (h3 x h)
  · rw [if_neg hmc]
    obtain ⟨h1, _, h3⟩ := serverStep_fields sc env i ""
    exact ⟨h1, fun x hx => Or.inr (h3 x hx)⟩

theorem SelectOptions_single (sc : sampleConfig) (env : SelectEnv)
    (i : sampleConfigIntegration) (h : sc.Integrations = [i]) :
    SelectOptions sc env = clientStep sc env (some i) := by
  simp [SelectOptions, sampleConfig.hasIntegrations, h]

theorem serverStep_multi (sc : sampleConfig) (env : SelectEnv)
    (i : sampleConfigIntegration) (c v : String)
    (hms : i.hasMultipleServers = true) (hv : env.serverChoice = .ok v) :
    serverStep sc env i c =
      { afterServer sc env i c v with
          promptsInvoked := "server" :: (afterServer sc env i c v).promptsInvoked } := by
  simp [serverStep, hms, hv]

theorem serverStep_single (sc : sampleConfig) (env : SelectEnv)
    (i : sampleConfigIntegration) (c : String)
    (hms : i.hasMultipleServers = false) :
    serverStep sc env i c = afterServer sc env i c "" := by
  simp [serverStep, hms]

theorem clientStep_multi (sc : sampleConfig) (env : SelectEnv)
    (i : sampleConfigIntegration) (c : String)
    (hmc : i.hasMultipleClients = true) (hc : env.clientChoice = .ok c) :
    clientStep sc env (some i) =
      { serverStep sc env i c with
          promptsInvoked := "client" :: (serverStep sc env i c).promptsInvoked } := by
  simp [clientStep, hmc, hc]

theorem clientStep_single (sc : sampleConfig) (env : SelectEnv)
    (i : sampleConfigIntegration) (hmc : i.hasMultipleClients = false) :
    clientStep sc env (some i) = serverStep sc env i "" := by
  simp [clientStep, hmc]

/-- C4: for a manifest with exactly one integration, `SelectOptions` never
invokes the integration prompt and selects that sole integration; the
integration prompt is invoked only when the manifest contains more than one
integration. -/
theorem sole_integration_auto_selected (sc : sampleConfig) (env : SelectEnv)
    (i : sampleConfigIntegration) (h : sc.Integrations = [i]) :
    ("integration" ∉ (SelectOptions sc env).promptsInvoked ∧
      (SelectOptions sc env).integration = some i) ∧
    ∀ sc2 env2, "integration" ∈ (SelectOptions sc2 env2).promptsInvoked →
      sc2.Integrations.length > 1 := by
  constructor
  · rw [SelectOptions_single sc env i h]
    obtain ⟨h1, h2⟩ := clientStep_fields sc env i
    refine ⟨?_, h1⟩
    intro hmem
    rcases h2 _ hmem with hx | hx | hx <;> simp at hx
  · intro sc2 env2 hmem
    by_cases hin : sc2.hasIntegrations = true
    · simpa [sampleConfig.hasIntegrations] using hin
    · exfalso
      rw [SelectOptions] at hmem
      rw [Bool.not_eq_true] at hin
      rw [hin] at hmem
      simp only [Bool.false_eq_true, if_false] at hmem
      cases hI : sc2.Integrations with
      | nil => rw [hI] at hmem; simp at hmem
      | cons j rest =>
        rw [hI] at hmem
        simp only [] at hmem
        obtain ⟨_, h2⟩ := clientStep_fields sc2 env2 j
        rcases h2 _ hmem with hx | hx | hx <;> simp at hx

/-- Integration used by several witnesses: sole integration, one client,
one server. -/
def wIntegration4 : sampleConfigIntegration := ⟨"main", ["html"], ["node"]⟩

/-- Manifest used by the C4 witness: exactly one integration. -/
def wManifest4 : sampleConfig := ⟨"sample", false, [], [wIntegration4], []⟩

/-- Prompt environment used by several witnesses and counterexamples. -/
def probeEnv : SelectEnv :=
  ⟨Except.ok "main", Except.ok "html", Except.ok "node", Except.ok false,
    fun _ => "", fun _ => Except.error "unused"⟩

theorem sole_integration_auto_selected_witness :
    wManifest4.Integrations = [wIntegration4] ∧
    (("integration" ∉ (SelectOptions wManifest4 probeEnv).promptsInvoked ∧
      (SelectOptions wManifest4 probeEnv).integration = some wIntegration4) ∧
    ∀ sc2 env2, "integration" ∈ (SelectOptions sc2 env2).promptsInvoked →
      sc2.Integrations.length > 1) :=
  ⟨rfl, sole_integration_auto_selected wManifest4 probeEnv wIntegration4 rfl⟩

/-- Integration offering exactly one client, used to refute C5. -/
def oneClientIntegration : sampleConfigIntegration := ⟨"main", ["html"], []⟩

/-- Manifest whose sole integration offers exactly one client. -/
def oneClientManifest : sampleConfig := ⟨"sample", false, [], [oneClientIntegration], []⟩

/-- C5 counterexample: the chosen integration offers exactly one client
option, `"html"`, yet `SelectOptions` leaves the client selection empty
rather than auto-selecting that single option. -/
theorem single_client_not_auto_selected :
    oneClientIntegration.Clients = ["html"] ∧
    (SelectOptions oneClientManifest probeEnv).client = "" ∧
    (SelectOptions oneClientManifest probeEnv).client ≠ "html" := by
  refine ⟨rfl, rfl, ?_⟩
  decide

/-- C5 as amended: on each axis, more than one option prompts the user by
name; at most one option (including exactly one) skips the prompt and
leaves the selection for that axis empty. -/
theorem axis_cardinality_amended (sc : sampleConfig) (env : SelectEnv)
    (i : sampleConfigIntegration) (c v : String) (h : sc.Integrations = [i])
    (hc : env.clientChoice = .ok c) (hv : env.serverChoice = .ok v) :
    (i.Clients.length > 1 →
      "client" ∈ (SelectOptions sc env).promptsInvoked ∧
      (SelectOptions sc env).client = c) ∧
    (i.Clients.length ≤ 1 →
      "client" ∉ (SelectOptions sc env).promptsInvoked ∧
      (SelectOptions sc env).client = "") ∧
    (i.Servers.length > 1 →
      "server" ∈ (SelectOptions sc env).promptsInvoked ∧
      (SelectOptions sc env).server = v) ∧
    (i.Servers.length ≤ 1 →
      "server" ∉ (SelectOptions sc env).promptsInvoked ∧
      (SelectOptions sc env).server = "") := by
  rw [SelectOptions_single sc env i h]
  have hmcIff : i.hasMultipleClients = true ↔ i.Clients.length > 1 := by
    simp [sampleConfigIntegration.hasMultipleClients]
  have hmsIff : i.hasMultipleServers = true ↔ i.Servers.length > 1 := by
    simp [sampleConfigIntegration.hasMultipleServers]
  by_cases hmc : i.hasMultipleClients = true
  · rw [clientStep_multi sc env i c hmc hc]
    have hcGT : i.Clients.length > 1 := hmcIff.mp hmc
    refine ⟨fun _ => ⟨List.mem_cons_self _ _, ?_⟩, fun hle => absurd hcGT (by omega), ?_, ?_⟩
    · exact (serverStep_fields sc env i c).2.1
    · intro hsGT
      have hms : i.hasMultipleServers = true := hmsIff.mpr hsGT
      rw [serverStep_multi sc env i c v hms hv]
      exact ⟨List.mem_cons_of_mem _ (List.mem_cons_self _ _), rfl⟩
    · intro hsLE
      have hms : i.hasMultipleServers = false := by
        rw [← Bool.not_eq_true]; intro hx; exact absurd (hmsIff.mp hx) (by omega)
      rw [serverStep_single sc env i c hms]
      refine ⟨?_, rfl⟩
      intro hmem
      rcases List.mem_cons.mp hmem with hx | hx
      · simp at hx
      · have := afterServer_prompts sc env i c "" _ hx; simp at this
  · have hmcF : i.hasMultipleClients = false := by rwa [Bool.not_eq_true] at hmc
    rw [clientStep_single sc env i hmcF]
    have hcLE : i.Clients.length ≤ 1 := by
      by_contra hx
      exact hmc (hmcIff.mpr (by omega))
    refine ⟨fun hgt => absurd hgt (by omega), fun _ => ⟨?_, ?_⟩, ?_, ?_⟩
    · intro hmem
      rcases (serverStep_fields sc env i "").2.2 _ hmem with hx | hx <;> simp at hx
    · exact (serverStep_fields sc env i "").2.1
    · intro hsGT
      have hms : i.hasMultipleServers = true := hmsIff.mpr hsGT
      rw [serverStep_multi sc env i "" v hms hv]
      exact ⟨List.mem_cons_self _ _, rfl⟩
    · intro hsLE
      have hms : i.hasMultipleServers = false := by
        rw [← Bool.not_eq_true]; intro hx; exact absurd (hmsIff.mp hx) (by omega)
      rw [serverStep_single sc env i "" hms]
      refine ⟨?_, rfl⟩
      intro hmem
      have := afterServer_prompts sc env i "" "" _ hmem; simp at this

/-- Integration with two clients and two servers, for the C5 witness. -/
def wIntegration5 : sampleConfigIntegration := ⟨"main", ["html", "react"], ["node", "ruby"]⟩

/-- Manifest whose sole integration is `wIntegration5`. -/
def wManifest5 : sampleConfig := ⟨"sample", false, [], [wIntegration5], []⟩

/-- Prompt environment for the C5 witness: the client prompt picks
`"react"`, the server prompt picks `"ruby"`. -/
def wEnv5 : SelectEnv :=
  ⟨Except.ok "main", Except.ok "react", Except.ok "ruby", Except.ok false,
    fun _ => "", fun _ => Except.error "unused"⟩

theorem axis_cardinality_amended_witness :
    wManifest5.Integrations = [wIntegration5] ∧
    wEnv5.clientChoice = .ok "react" ∧ wEnv5.serverChoice = .ok "ruby" ∧
    ((wIntegration5.Clients.length > 1 →
      "client" ∈ (SelectOptions wManifest5 wEnv5).promptsInvoked ∧
      (SelectOptions wManifest5 wEnv5).client = "react") ∧
    (wIntegration5.Clients.length ≤ 1 →
      "client" ∉ (SelectOptions wManifest5 wEnv5).promptsInvoked ∧
      (SelectOptions wManifest5 wEnv5).client = "") ∧
    (wIntegration5.Servers.length > 1 →
      "server" ∈ (SelectOptions wManifest5 wEnv5).promptsInvoked ∧
      (SelectOptions wManifest5 wEnv5).server = "ruby") ∧
    (wIntegration5.Servers.length ≤ 1 →
      "server" ∉ (SelectOptions wManifest5 wEnv5).promptsInvoked ∧
      (SelectOptions wManifest5 wEnv5).server = "")) :=
  ⟨rfl, rfl, rfl, axis_cardinality_amended wManifest5 wEnv5 wIntegration5 "react" "ruby" rfl rfl rfl⟩

/-- Manifest with zero integrations, the C9 failing input. -/
def emptyManifest : sampleConfig := ⟨"empty", false, [], [], []⟩

/-- C9: on a manifest with zero integrations, `SelectOptions` performs the
unguarded `Integrations[0]` access and panics with an index-out-of-range
runtime error instead of rejecting the manifest with an explicit error. -/
theorem zero_integrations_out_of_range :
    (SelectOptions emptyManifest probeEnv).outcome = .panicked "index out of range" ∧
    ∀ msg, (SelectOptions emptyManifest probeEnv).outcome ≠ StepOutcome.err msg := by
  refine ⟨rfl, ?_⟩
  intro msg hmsg
  rw [show (SelectOptions emptyManifest probeEnv).outcome
      = .panicked "index out of range" from rfl] at hmsg
  exact StepOutcome.noConfusion hmsg

/-- C10: when the chosen integration has more than one client and the client
prompt errors, `SelectOptions` returns `nil` — success — discarding the
error; the server axis keeps its zero value, and neither the server prompt
nor the gap-check prompt or any resource creation runs. -/
theorem client_prompt_error_swallowed (sc : sampleConfig) (env : SelectEnv)
    (i : sampleConfigIntegration) (e : String) (h : sc.Integrations = [i])
    (hm : i.hasMultipleClients = true) (he : env.clientChoice = .error e) :
    (SelectOptions sc env).outcome = .ok ∧
    (SelectOptions sc env).client = "" ∧
    (SelectOptions sc env).server = "" ∧
    (SelectOptions sc env).persisted = [] ∧
    (SelectOptions sc env).created = [] ∧
    "server" ∉ (SelectOptions sc env).promptsInvoked ∧
    "create" ∉ (SelectOptions sc env).promptsInvoked := by
  rw [SelectOptions_single sc env i h]
  simp [clientStep, hm, he]

/-- Prompt environment for the C10 witness: the client prompt is cancelled. -/
def wEnv10 : SelectEnv :=
  ⟨Except.ok "main", Except.error "interrupt", Except.ok "ruby", Except.ok true,
    fun _ => "", fun _ => Except.error "unused"⟩

theorem client_prompt_error_swallowed_witness :
    wManifest5.Integrations = [wIntegration5] ∧
    wIntegration5.hasMultipleClients = true ∧
    wEnv10.clientChoice = .error "interrupt" ∧
    ((SelectOptions wManifest5 wEnv10).outcome = .ok ∧
    (SelectOptions wManifest5 wEnv10).client = "" ∧
    (SelectOptions wManifest5 wEnv10).server = "" ∧
    (SelectOptions wManifest5 wEnv10).persisted = [] ∧
    (SelectOptions wManifest5 wEnv10).created = [] ∧
    "server" ∉ (SelectOptions wManifest5 wEnv10).promptsInvoked ∧
    "create" ∉ (SelectOptions wManifest5 wEnv10).promptsInvoked) :=
  ⟨rfl, rfl, rfl,
    client_prompt_error_swallowed wManifest5 wEnv10 wIntegration5 "interrupt" rfl rfl rfl⟩

/-- JSON values, used to model the body returned by the Stripe API. -/
inductive JSON where
  | null
  | bool (b : Bool)
  | num (n : Int)
  | str (s : String)
  | arr (xs : List JSON)
  | obj (fields : List (String × JSON))
deriving Repr

/-- The API response body as handed to `json.Unmarshal`: `none` models bytes
that are not valid JSON at all. -/
def ResponseBody : Type := Option JSON

/-- `json.Unmarshal(bytes, &fields)` with `fields map[string]interface` +
braces: fails on invalid JSON and on any top-level value that is not an
object. -/
def unmarshalMap (body : ResponseBody) : Except String (List (String × JSON)) :=
  match body with
  | none => .error "invalid character in JSON input"
  | some (.obj fields) => .ok fields
  | some _ => .error "json: cannot unmarshal value into Go value of type map"

/-- Go map indexing `fields["id"]`: the first binding for the key. -/
def lookupField (fields : List (String × JSON)) (key : String) : Option JSON :=
  (fields.find? (fun p => p.1 = key)).map (fun p => p.2)

/-- Collaborator inputs of `CreateRequiredResource`: the profile's API-key
lookup and the HTTP executor (`MakeRequest`), keyed by path and form data. -/
structure CreateEnv where
  getAPIKey : Except String String
  makeRequest : String → List String → Except String ResponseBody

/-- `(s *Samples) CreateRequiredResource`: resolve the catalog template,
fetch the API key, POST the template's fixed path and ordered field list,
unmarshal the response into a field map and extract the string field
`"id"`; every failure is returned as an error. -/
def CreateRequiredResource (env : CreateEnv) (requiredResourceName : String) :
    Except String String :=
  match getRequiredResource requiredResourceName with
  | none =>
    .error ("Unexpected: tried to create unknown required resource " ++ requiredResourceName)
  | some rr =>
    match env.getAPIKey with
    | .error e => .error e
    | .ok _ =>
      match env.makeRequest rr.httpPath rr.data with
      | .error e => .error e
      | .ok body =>
        match unmarshalMap body with
        | .error e => .error e
        | .ok fields =>
          match lookupField fields "id" with
          | some (.str id) => .ok id
          | _ =>
            .error ("Unexpected response from stripe API when creating "
              ++ requiredResourceName ++ ", did not contain ID")

/-- Whether the response body is a JSON object holding a string field
`"id"` — the only shape `CreateRequiredResource` accepts. -/
def hasStringID (body : ResponseBody) : Bool :=
  match body with
  | some (.obj fields) =>
    match lookupField fields "id" with
    | some (.str _) => true
    | _ => false
  | _ => false

/-- Whether an `Except` result is an error return. -/
def isErrorResult {α : Type} : Except String α → Bool
  | .error _ => true
  | .ok _ => false

/-- C2: `CreateRequiredResource` errors whenever the response body is not a
JSON object with a string `"id"` field; and in the `SelectOptions` creation
loop (`provisionLoop`, invoked by `gapCheckStep`), a failure at the k-th
resource propagates that error, attempts no later creation, and leaves the
k-1 earlier successes persisted, each having been persisted before the next
creation was attempted. -/
theorem create_resource_error_propagation
    (apiKey : Except String String) (body : ResponseBody) (nm : String)
    (create : String → Except String String) (ids : String → String) (e : String)
    (pre post : List RequiredResource) (r : RequiredResource)
    (hbody : hasStringID body = false)
    (hpre : ∀ x ∈ pre, create x.name = Except.ok (ids x.name))
    (hr : create r.name = Except.error e) :
    isErrorResult (CreateRequiredResource ⟨apiKey, fun _ _ => Except.ok body⟩ nm) = true ∧
    provisionLoop create (pre ++ r :: post) =
      ⟨some e, pre.map (fun x => (x.name, ids x.name)),
        pre.map (fun x => x.name) ++ [r.name]⟩ := by
  constructor
  · cases hcat : getRequiredResource nm with
    | none => simp [CreateRequiredResource, hcat, isErrorResult]
    | some rr =>
      cases hkey : apiKey with
      | error ek => simp [CreateRequiredResource, hcat, hkey, isErrorResult]
      | ok k =>
        cases body with
        | none => simp [CreateRequiredResource, hcat, hkey, unmarshalMap, isErrorResult]
        | some j =>
          cases j with
          | obj fields =>
            cases hf : lookupField fields "id" with
            | none =>
              simp [CreateRequiredResource, hcat, hkey, unmarshalMap, hf, isErrorResult]
            | some v =>
              cases v <;>
                simp_all [CreateRequiredResource, hcat, hkey, unmarshalMap, hf,
                  isErrorResult, hasStringID]
          | null => simp [CreateRequiredResource, hcat, hkey, unmarshalMap, isErrorResult]
          | bool b => simp [CreateRequiredResource, hcat, hkey, unmarshalMap, isErrorResult]
          | num n => simp [CreateRequiredResource, hcat, hkey, unmarshalMap, isErrorResult]
          | str s => simp [CreateRequiredResource, hcat, hkey, unmarshalMap, isErrorResult]
          | arr xs => simp [CreateRequiredResource, hcat, hkey, unmarshalMap, isErrorResult]
  · induction pre with
    | nil => simp [provisionLoop, hr]
    | cons x rest ih =>
      have hx : create x.name = Except.ok (ids x.name) := hpre x (List.mem_cons_self x rest)
      have hrest : ∀ y ∈ rest, create y.name = Except.ok (ids y.name) := by
        intro y hy; exact hpre y (List.mem_cons_of_mem x hy)
      simp [provisionLoop, hx, ih hrest]

/-- Response body for the C2 witness: a JSON object lacking `"id"`. -/
def wBody2 : ResponseBody := some (.obj [("object", .str "price")])

/-- Per-name creation outcomes for the C2 witness: the basic price succeeds,
the pro price fails. -/
def wCreate2 : String → Except String String :=
  fun nm => if nm = "stripe_samples_price_recurring_basic_id"
    then Except.ok "price_123" else Except.error "api down"

/-- The basic-price catalog template, first entry of the static catalog. -/
def basicPrice : RequiredResource := requiredResources.headI

/-- The pro-price catalog template, second entry of the static catalog. -/
def proPrice : RequiredResource := (requiredResources.drop 1).headI

theorem create_resource_error_propagation_witness :
    hasStringID wBody2 = false ∧
    (∀ x ∈ [basicPrice], wCreate2 x.name = Except.ok "price_123") ∧
    wCreate2 proPrice.name = Except.error "api down" ∧
    (isErrorResult (CreateRequiredResource ⟨Except.ok "sk_test_123", fun _ _ => Except.ok wBody2⟩
        "stripe_samples_price_recurring_basic_id") = true ∧
    provisionLoop wCreate2 ([basicPrice] ++ proPrice :: []) =
      ⟨some "api down", [basicPrice].map (fun x => (x.name, "price_123")),
        [basicPrice].map (fun x => x.name) ++ [proPrice.name]⟩) :=
  ⟨by decide, by decide, by decide,
    create_resource_error_propagation (Except.ok "sk_test_123") wBody2
      "stripe_samples_price_recurring_basic_id" wCreate2 (fun _ => "price_123")
      "api down" [basicPrice] [] proPrice (by decide) (by decide) (by decide)⟩

/-- The message of go-git's `git.NoErrAlreadyUpToDate`, the distinguished
pull outcome `Initialize` compares error messages against. -/
def NoErrAlreadyUpToDateMessage : String := "already up-to-date"

/-- Collaborator inputs of `Initialize`: the cache-path computation, whether
`Stat` finds the working copy, the clone and pull results, the descriptor
read, and `json.Unmarshal` on the descriptor bytes. -/
structure InitEnv where
  appCacheFolder : Except String String
  statExists : Bool
  clone : Except String Unit
  pull : Except String Unit
  readFile : Except String String
  unmarshal : String → Except String sampleConfig

/-- Observable result of `Initialize`: the returned error if any, the repo
path stored on the struct, the parsed manifest, and whether the descriptor
file read was reached. -/
structure InitResult where
  outcome : Except String Unit
  repo : Option String
  parsed : Option sampleConfig
  readAttempted : Bool

/-- `(s *Samples) Initialize`: compute the cache path, clone when absent or
pull when present — swallowing only the pull error whose message equals
go-git's already-up-to-date sentinel — then read and unmarshal `.cli.json`. -/
def Initialize (env : InitEnv) : InitResult :=
  match env.appCacheFolder with
  | .error e => ⟨.error e, none, none, false⟩
  | .ok appPath =>
    let syncResult : Except String Unit :=
      if !env.statExists then env.clone
      else
        match env.pull with
        | .ok _ => .ok ()
        | .error msg =>
          if msg = NoErrAlreadyUpToDateMessage then .ok () else .error msg
    match syncResult with
    | .error e => ⟨.error e, some appPath, none, false⟩
    | .ok _ =>
      match env.readFile with
      | .error e => ⟨.error e, some appPath, none, true⟩
      | .ok bytes =>
        match env.unmarshal bytes with
        | .error e => ⟨.error e, some appPath, none, true⟩
        | .ok cfg => ⟨.ok (), some appPath, some cfg, true⟩

/-- C6: with an existing working copy, a pull error carrying the
already-up-to-date message is swallowed — `Initialize` behaves exactly as
if the pull had succeeded and proceeds to read and parse the descriptor —
while any other pull error is returned without the descriptor being read. -/
theorem pull_up_to_date_swallowed (env : InitEnv) (path : String)
    (happ : env.appCacheFolder = .ok path) (hstat : env.statExists = true) :
    (env.pull = .error NoErrAlreadyUpToDateMessage →
      Initialize env = Initialize { env with pull := .ok () } ∧
      (Initialize env).readAttempted = true) ∧
    (∀ msg, env.pull = .error msg → msg ≠ NoErrAlreadyUpToDateMessage →
      (Initialize env).outcome = .error msg ∧
      (Initialize env).parsed = none ∧
      (Initialize env).readAttempted = false) := by
  constructor
  · intro hpull
    have heq : Initialize env = Initialize { env with pull := .ok () } := by
      simp [Initialize, happ, hstat, hpull]
    refine ⟨heq, ?_⟩
    rw [heq]
    simp only [Initialize, happ, hstat]
    cases hr : env.readFile with
    | error e => simp [hr]
    | ok bytes =>
      cases hu : env.unmarshal bytes with
      | error e => simp [hr, hu]
      | ok cfg => simp [hr, hu]
  · intro msg hpull hne
    simp [Initialize, happ, hstat, hpull, hne]

/-- Initialize environment for the C6 witness: existing working copy whose
pull reports the already-up-to-date outcome. -/
def wInitEnv : InitEnv :=
  ⟨Except.ok "/cache/accept-a-payment", true,
    Except.ok (), Except.error NoErrAlreadyUpToDateMessage,
    Except.ok "descriptor bytes",
    fun _ => Except.ok ⟨"accept-a-payment", true, [], [⟨"main", [], ["node"]⟩], []⟩⟩

theorem pull_up_to_date_swallowed_witness :
    wInitEnv.appCacheFolder = .ok "/cache/accept-a-payment" ∧
    wInitEnv.statExists = true ∧
    ((wInitEnv.pull = .error NoErrAlreadyUpToDateMessage →
      Initialize wInitEnv = Initialize { wInitEnv with pull := .ok () } ∧
      (Initialize wInitEnv).readAttempted = true) ∧
    (∀ msg, wInitEnv.pull = .error msg → msg ≠ NoErrAlreadyUpToDateMessage →
      (Initialize wInitEnv).outcome = .error msg ∧
      (Initialize wInitEnv).parsed = none ∧
      (Initialize wInitEnv).readAttempted = false)) :=
  ⟨rfl, rfl, pull_up_to_date_swallowed wInitEnv "/cache/accept-a-payment" rfl rfl⟩

/-- Separator-joining of the retained path elements. -/
def joinNonEmpty : List String → String
  | [] => ""
  | [x] => x
  | x :: y :: rest => x ++ "/" ++ joinNonEmpty (y :: rest)

/-- Go's `filepath.Join`: empty elements are skipped, the rest are joined
with the separator.  (Cleaning of `.` and `..` segments is not needed for
the paths the workflow builds.) -/
def filepathJoin (elems : List String) : String :=
  joinNonEmpty (elems.filter (fun s => ¬ s = ""))

/-- Collaborator inputs of `Copy`: the directory-listing collaborator
(`GetFiles`) and the recursive-copy collaborator (`copy.Copy`). -/
structure CopyEnv where
  getFiles : String → Except String (List String)
  copyOp : String → String → Except String Unit

/-- The `Samples` fields `Copy` reads: the repo path and the resolved
integration / client / server selection. -/
structure CopyState where
  repo : String
  integration : sampleConfigIntegration
  client : String
  server : String

/-- Observable result of `Copy`: the returned error if any, the
`(source, destination)` copy calls attempted in order, and the paths
passed to the directory-listing collaborator. -/
structure CopyResult where
  outcome : Except String Unit
  copies : List (String × String)
  listed : List String
deriving Repr, DecidableEq

/-- A run of consecutive `copy.Copy` calls, aborting on the first error;
records the calls attempted (the failing one included). -/
def copyAll (env : CopyEnv) : List (String × String) → Except String Unit × List (String × String)
  | [] => (.ok (), [])
  | (src, dst) :: rest =>
    match env.copyOp src dst with
    | .error e => (.error e, [(src, dst)])
    | .ok _ =>
      let r := copyAll env rest
      (r.1, (src, dst) :: r.2)

/-- `(s *Samples) Copy`: the server variant (when the integration has
servers), then the client variant (when it has clients), then every
remaining top-level entry under the integration folder, then every
top-level entry of the repo, each step aborting the call on failure. -/
def Copy (s : CopyState) (env : CopyEnv) (target : String) : CopyResult :=
  let integration := s.integration.name
  let step1 :=
    if s.integration.hasServers then
      copyAll env [(filepathJoin [s.repo, integration, "server", s.server],
        filepathJoin [target, "server"])]
    else (.ok (), [])
  match step1 with
  | (.error e, done1) => ⟨.error e, done1, []⟩
  | (.ok _, done1) =>
    let step2 :=
      if s.integration.hasClients then
        copyAll env [(filepathJoin [s.repo, integration, "client", s.client],
          filepathJoin [target, "client"])]
      else (.ok (), [])
    match step2 with
    | (.error e, done2) => ⟨.error e, done1 ++ done2, []⟩
    | (.ok _, done2) =>
      match env.getFiles (filepathJoin [s.repo, integration]) with
      | .error e => ⟨.error e, done1 ++ done2, [filepathJoin [s.repo, integration]]⟩
      | .ok files =>
        let step3 := copyAll env (files.map (fun file =>
          (filepathJoin [s.repo, integration, file], filepathJoin [target, file])))
        match step3 with
        | (.error e, done3) =>
          ⟨.error e, done1 ++ done2 ++ done3, [filepathJoin [s.repo, integration]]⟩
        | (.ok _, done3) =>
          match env.getFiles s.repo with
          | .error e =>
            ⟨.error e, done1 ++ done2 ++ done3, [filepathJoin [s.repo, integration], s.repo]⟩
          | .ok rootFiles =>
            let step4 := copyAll env (rootFiles.map (fun file =>
              (filepathJoin [s.repo, file], filepathJoin [target, file])))
            ⟨step4.1, done1 ++ done2 ++ done3 ++ step4.2,
              [filepathJoin [s.repo, integration], s.repo]⟩

theorem copyAll_ok (env : CopyEnv) (pairs : List (String × String))
    (hok : ∀ src dst, env.copyOp src dst = .ok ()) :
    copyAll env pairs = (.ok (), pairs) := by
  induction pairs with
  | nil => rfl
  | cons p rest ih =>
    obtain ⟨src, dst⟩ := p
    simp [copyAll, hok, ih]

theorem filepathJoin_empty_mid (x y : String) (rest : List String) :
    filepathJoin (x :: "" :: y :: rest) = filepathJoin (x :: y :: rest) := by
  simp [filepathJoin, List.filter_cons]

theorem filepathJoin_empty_last (x : String) :
    filepathJoin [x, ""] = x := by
  by_cases hx : x = "" <;> simp [filepathJoin, List.filter_cons, hx, joinNonEmpty]

/-- C7: for the sentinel integration name `"main"` the integration path
component resolves to the empty string, so `Copy` reads the server variant
from `<repo>/server/<server>`, the client variant from
`<repo>/client/<client>`, and both top-level listings from the repository
root itself — no `"main"` subfolder appears in any attempted path. -/
theorem main_sentinel_copies_from_root (s : CopyState) (env : CopyEnv)
    (target : String) (files : List String)
    (hname : s.integration.Name = "main")
    (hok : ∀ src dst, env.copyOp src dst = .ok ())
    (hfiles : env.getFiles s.repo = .ok files) :
    s.integration.name = "" ∧
    (Copy s env target).listed = [s.repo, s.repo] ∧
    (Copy s env target).copies =
      (if s.integration.hasServers then
        [(filepathJoin [s.repo, "server", s.server], filepathJoin [target, "server"])]
      else []) ++
      (if s.integration.hasClients then
        [(filepathJoin [s.repo, "client", s.client], filepathJoin [target, "client"])]
      else []) ++
      files.map (fun file => (filepathJoin [s.repo, file], filepathJoin [target, file])) ++
      files.map (fun file => (filepathJoin [s.repo, file], filepathJoin [target, file])) := by
  have hempty : s.integration.name = "" := by
    simp [sampleConfigIntegration.name, hname]
  refine ⟨hempty, ?_, ?_⟩ <;>
    (by_cases hs : s.integration.hasServers = true <;>
     by_cases hc : s.integration.hasClients = true <;>
     simp [Copy, hempty, hs, hc, copyAll_ok env _ hok, hfiles,
       filepathJoin_empty_mid, filepathJoin_empty_last])

/-- Copy state for the C7 witness: sentinel integration `"main"` with a
node server and an html client. -/
def wCopyState : CopyState :=
  ⟨"/cache/accept-a-payment", ⟨"main", ["html"], ["node"]⟩, "html", "node"⟩

/-- Copy environment for the C7 witness: listings return a readme, and
every copy succeeds. -/
def wCopyEnv : CopyEnv :=
  ⟨fun _ => Except.ok ["readme.md"], fun _ _ => Except.ok ()⟩

theorem main_sentinel_copies_from_root_witness :
    wCopyState.integration.Name = "main" ∧
    wCopyEnv.getFiles wCopyState.repo = .ok ["readme.md"] ∧
    (wCopyState.integration.name = "" ∧
    (Copy wCopyState wCopyEnv "/target").listed = [wCopyState.repo, wCopyState.repo] ∧
    (Copy wCopyState wCopyEnv "/target").copies =
      (if wCopyState.integration.hasServers then
        [(filepathJoin [wCopyState.repo, "server", wCopyState.server],
          filepathJoin ["/target", "server"])]
      else []) ++
      (if wCopyState.integration.hasClients then
        [(filepathJoin [wCopyState.repo, "client", wCopyState.client],
          filepathJoin ["/target", "client"])]
      else []) ++
      ["readme.md"].map (fun file =>
        (filepathJoin [wCopyState.repo, file], filepathJoin ["/target", file])) ++
      ["readme.md"].map (fun file =>
        (filepathJoin [wCopyState.repo, file], filepathJoin ["/target", file]))) :=
  ⟨rfl, rfl, main_sentinel_copies_from_root wCopyState wCopyEnv "/target" ["readme.md"]
    rfl (fun _ _ => rfl) rfl⟩

/-- Setting a key in the dotenv mapping (Go map assignment), modelled on an
association list: overwrite the binding when present, append otherwise. -/
def setKey (m : List (String × String)) (k v : String) : List (String × String) :=
  if m.any (fun p => p.1 = k) then
    m.map (fun p => if p.1 = k then (k, v) else p)
  else m ++ [(k, v)]

/-- Collaborator inputs of `ConfigureDotEnv`: opening and parsing
`.env.example`, the profile's keys and device name, the webhook
authorization handshake, the resource ledger, and the final file write. -/
structure DotEnvEnv where
  openExample : Except String String
  parseEnv : String → Except String (List (String × String))
  publishableKey : String
  getAPIKey : Except String String
  getDeviceName : Except String String
  authorize : Except String String
  profile : Profile
  writeResult : Except String Unit

/-- Observable result of `ConfigureDotEnv`: the returned error if any,
whether `.env.example` was opened, whether the authorization handshake was
contacted, and the write attempted (destination path and mapping). -/
structure DotEnvResult where
  outcome : Except String Unit
  openedExample : Bool
  authorized : Bool
  written : Option (String × List (String × String))

/-- `(s *Samples) ConfigureDotEnv`: only when the chosen integration has
servers and the manifest's `configureDotEnv` flag is set, read and parse
`.env.example`, require a non-empty publishable key, fetch the secret key
and device name, authorize a webhooks session, set the four reserved keys,
inject the persisted identifier of every declared required resource that
has one, and write `<sampleLocation>/server/.env`. -/
def ConfigureDotEnv (sc : sampleConfig) (i : sampleConfigIntegration)
    (env : DotEnvEnv) (sampleLocation : String) : DotEnvResult :=
  if i.hasServers then
    if !sc.ConfigureDotEnv then ⟨.ok (), false, false, none⟩
    else
      match env.openExample with
      | .error e => ⟨.error e, true, false, none⟩
      | .ok contents =>
        match env.parseEnv contents with
        | .error e => ⟨.error e, true, false, none⟩
        | .ok dotenv =>
          if env.publishableKey = "" then
            ⟨.error "we could not set the publishable key in the .env file; please set this manually or login again to set it automatically next time",
              true, false, none⟩
          else
            match env.getAPIKey with
            | .error e => ⟨.error e, true, false, none⟩
            | .ok apiKey =>
              match env.getDeviceName with
              | .error e => ⟨.error e, true, false, none⟩
              | .ok _ =>
                match env.authorize with
                | .error e => ⟨.error e, true, true, none⟩
                | .ok secret =>
                  let m1 := setKey dotenv "STRIPE_PUBLISHABLE_KEY" env.publishableKey
                  let m2 := setKey m1 "STRIPE_SECRET_KEY" apiKey
                  let m3 := setKey m2 "STRIPE_WEBHOOK_SECRET" secret
                  let m4 := setKey m3 "STATIC_DIR" "../client"
                  let m5 := sc.RequiredResources.foldl (fun acc rrConfig =>
                    let id := env.profile rrConfig.Name
                    if ¬ id = "" then setKey acc rrConfig.EnvVar id else acc) m4
                  let envFile := filepathJoin [sampleLocation, "server", ".env"]
                  match env.writeResult with
                  | .error e => ⟨.error e, true, true, some (envFile, m5)⟩
                  | .ok _ => ⟨.ok (), true, true, some (envFile, m5)⟩
  else ⟨.ok (), false, false, none⟩

/-- C8: `ConfigureDotEnv` is a strict no-op — success with no example-file
read, no handshake and no write — whenever the manifest's `configureDotEnv`
flag is false (even with server variants) or the chosen integration offers
no server variants. -/
theorem configure_dotenv_noop (sc : sampleConfig) (i : sampleConfigIntegration)
    (env : DotEnvEnv) (sampleLocation : String)
    (h : sc.ConfigureDotEnv = false ∨ i.hasServers = false) :
    ConfigureDotEnv sc i env sampleLocation
      = ⟨.ok (), false, false, none⟩ := by
  rcases h with hflag | hsrv
  · by_cases hs : i.hasServers = true
    · simp [ConfigureDotEnv, hs, hflag]
    · simp only [Bool.not_eq_true] at hs
      simp [ConfigureDotEnv, hs]
  · simp [ConfigureDotEnv, hsrv]

/-- Dotenv environment for the C8 witness: every collaborator would
succeed, so only the guards can make the call a no-op. -/
def wDotEnvEnv : DotEnvEnv :=
  ⟨Except.ok "STRIPE_PUBLISHABLE_KEY=\nSTATIC_DIR=\n",
    fun _ => Except.ok [("STRIPE_PUBLISHABLE_KEY", ""), ("STATIC_DIR", "")],
    "pk_test_123", Except.ok "sk_test_123", Except.ok "my-device",
    Except.ok "whsec_123", fun _ => "", Except.ok ()⟩

/-- Manifest for the C8 witness: `configureDotEnv` is false while the sole
integration offers a server variant. -/
def wManifest8 : sampleConfig :=
  ⟨"sample", false, [], [⟨"main", [], ["node"]⟩], []⟩

theorem configure_dotenv_noop_witness :
    (wManifest8.ConfigureDotEnv = false ∨
      (⟨"main", [], ["node"]⟩ : sampleConfigIntegration).hasServers = false) ∧
    ConfigureDotEnv wManifest8 ⟨"main", [], ["node"]⟩ wDotEnvEnv "/target"
      = ⟨.ok (), false, false, none⟩ :=
  ⟨Or.inl rfl,
    configure_dotenv_noop wManifest8 ⟨"main", [], ["node"]⟩ wDotEnvEnv "/target" (Or.inl rfl)⟩

end StripeSamples
